import Mathlib

/-!
Shallow embedding of the support-ticket dashboard (`src/app.py`) and proofs
of its specified properties.

The application itself only builds SQL strings and hands them to the
warehouse; the embedding therefore models the *semantics of the SQL each
function issues* over an in-memory table (`List Ticket`), which is the
standard shallow embedding for such a query layer.  Dates are modelled as
integers (day numbers), strings as Lean `String`s.
-/

namespace TicketDash

/-- A row of `FACT_SUPPORT_TICKETS` (see the column lists selected in
`get_filtered_tickets` and `search_tickets_cortex` in `src/app.py`). -/
structure Ticket where
  ticket_id : Nat
  customer_id : Nat
  account_id : Nat
  category : String
  subcategory : String
  priority : String
  created_date : Int
  geo_id : Nat
  description : String
deriving DecidableEq

/-- Embeds the WHERE clause built identically in `get_filtered_tickets`,
`get_tickets_over_time`, `get_tickets_by_category`, `get_tickets_by_priority`
(src/app.py lines 98-105 etc.): always `CREATED_DATE BETWEEN start AND end`
(a closed interval in SQL), plus `CATEGORY = c` only when `c != "All"`, plus
`PRIORITY = p` only when `p != "All"`, all conjoined with AND. -/
def matchesFilters (category priority : String) (start_date end_date : Int)
    (t : Ticket) : Bool :=
  (decide (start_date ≤ t.created_date) && decide (t.created_date ≤ end_date))
    && (if category = "All" then true else decide (t.category = category))
    && (if priority = "All" then true else decide (t.priority = priority))

/-- The set of table rows selected by the shared WHERE clause. -/
def filteredRows (table : List Ticket) (category priority : String)
    (start_date end_date : Int) : List Ticket :=
  table.filter (matchesFilters category priority start_date end_date)

/-- ORDER BY CREATED_DATE DESC comparator. -/
def dateDesc (a b : Ticket) : Prop := b.created_date ≤ a.created_date

instance : DecidableRel dateDesc := fun _ _ => Int.decLe _ _

instance : IsTotal Ticket dateDesc := ⟨fun a b => Int.le_total b.created_date a.created_date⟩

instance : IsTrans Ticket dateDesc := ⟨fun _ _ _ h1 h2 => le_trans h2 h1⟩

/-- ORDER BY CREATED_DATE (ascending) comparator on grouped rows. -/
def dateAsc (a b : Int × Nat) : Prop := a.1 ≤ b.1

instance : DecidableRel dateAsc := fun _ _ => Int.decLe _ _

instance : IsTotal (Int × Nat) dateAsc := ⟨fun a b => Int.le_total a.1 b.1⟩

instance : IsTrans (Int × Nat) dateAsc := ⟨fun _ _ _ h1 h2 => le_trans h1 h2⟩

/-- ORDER BY TICKET_COUNT DESC comparator on grouped rows. -/
def countDesc (a b : String × Nat) : Prop := b.2 ≤ a.2

instance : DecidableRel countDesc := fun _ _ => Nat.decLe _ _

instance : IsTotal (String × Nat) countDesc := ⟨fun a b => Nat.le_total b.2 a.2⟩

instance : IsTrans (String × Nat) countDesc := ⟨fun _ _ _ h1 h2 => le_trans h2 h1⟩

/-- Embeds `get_filtered_tickets` (src/app.py lines 96-115): the shared WHERE
clause, `ORDER BY CREATED_DATE DESC`, `LIMIT limit`.  The Python default for
`limit` is 100 and `main` calls it with that default. -/
def get_filtered_tickets (table : List Ticket) (category priority : String)
    (start_date end_date : Int) (limit : Nat) : List Ticket :=
  (List.insertionSort dateDesc
    (filteredRows table category priority start_date end_date)).take limit

/-- Embeds `GROUP BY k` + `COUNT(*)`: one output row per distinct key value
occurring among `rows`, paired with the number of rows having that key. -/
def groupCounts {β : Type} [DecidableEq β] (key : Ticket → β)
    (rows : List Ticket) : List (β × Nat) :=
  ((rows.map key).dedup).map
    (fun k => (k, (rows.filter (fun t => decide (key t = k))).length))

/-- Embeds `get_tickets_over_time` (src/app.py lines 118-136): shared WHERE
clause, `GROUP BY CREATED_DATE`, `COUNT(*)`, `ORDER BY CREATED_DATE`. -/
def get_tickets_over_time (table : List Ticket) (category priority : String)
    (start_date end_date : Int) : List (Int × Nat) :=
  List.insertionSort dateAsc
    (groupCounts Ticket.created_date
      (filteredRows table category priority start_date end_date))

/-- Embeds `get_tickets_by_category` (src/app.py lines 139-157): shared WHERE
clause, `GROUP BY CATEGORY`, `COUNT(*)`, `ORDER BY TICKET_COUNT DESC`. -/
def get_tickets_by_category (table : List Ticket) (category priority : String)
    (start_date end_date : Int) : List (String × Nat) :=
  List.insertionSort countDesc
    (groupCounts Ticket.category
      (filteredRows table category priority start_date end_date))

/-- Embeds `get_tickets_by_priority` (src/app.py lines 160-178): shared WHERE
clause, `GROUP BY PRIORITY`, `COUNT(*)`, `ORDER BY TICKET_COUNT DESC`. -/
def get_tickets_by_priority (table : List Ticket) (category priority : String)
    (start_date end_date : Int) : List (String × Nat) :=
  List.insertionSort countDesc
    (groupCounts Ticket.priority
      (filteredRows table category priority start_date end_date))

/-- Embeds the `total_query` built inline in `main` (src/app.py lines
255-265): `SELECT COUNT(*) ... WHERE CREATED_DATE BETWEEN ...`, with
`CATEGORY = c` spliced in front when `c != "All"` and `PRIORITY = p` spliced
in front when `p != "All"` (the `str.replace("WHERE", ...)` trick); the
resulting WHERE clause is the same conjunction as in the query builders. -/
def total_tickets (table : List Ticket) (category priority : String)
    (start_date end_date : Int) : Nat :=
  (filteredRows table category priority start_date end_date).length

/-- Sum of the TICKET_COUNT column of a grouped result. -/
def countSum {β : Type} (l : List (β × Nat)) : Nat := (l.map Prod.snd).sum

/-- Embeds `get_categories` (src/app.py lines 31-35):
`SELECT DISTINCT CATEGORY ... ORDER BY CATEGORY`, then `["All"] + ...`. -/
def get_categories (table : List Ticket) : List String :=
  "All" :: List.insertionSort (· ≤ ·) ((table.map Ticket.category).dedup)

/-- Embeds `get_priorities` (src/app.py lines 38-42):
`SELECT DISTINCT PRIORITY ... ORDER BY PRIORITY`, then `["All"] + ...`. -/
def get_priorities (table : List Ticket) : List String :=
  "All" :: List.insertionSort (· ≤ ·) ((table.map Ticket.priority).dedup)

/-! ### Search adapter (`search_tickets_cortex`, src/app.py lines 55-93) -/

/-- The single-quote character used by SQL string literals. -/
def quoteChar : Char := Char.ofNat 39

/-- The SQL LIKE multi-character wildcard. -/
def pctChar : Char := '%'

/-- The SQL LIKE single-character wildcard. -/
def usChar : Char := '_'

/-- Embeds `query.replace("'", "''")` (src/app.py line 58): every
single-quote character is doubled, all other characters pass through. -/
def escapeQuotes : List Char → List Char
  | [] => []
  | c :: r =>
    if c = quoteChar then quoteChar :: quoteChar :: escapeQuotes r
    else c :: escapeQuotes r

/-- How the SQL engine reads the inside of a string literal `'...'`:
a doubled quote denotes one quote character; a lone quote would terminate
the literal before the end of the text, which this parser reports as
`none`.  `some s` means the whole text is consumed as one literal whose
value is `s`. -/
def parseLitContent : List Char → Option (List Char)
  | [] => some []
  | c :: r =>
    if c = quoteChar then
      match r with
      | [] => none
      | d :: r2 =>
        if d = quoteChar then (parseLitContent r2).map (fun l => c :: l)
        else none
    else (parseLitContent r).map (fun l => c :: l)

/-- Helper for the `%` wildcard: tries the continuation `f` on every suffix
of the text. -/
def starLoop (f : List Char → Bool) : List Char → Bool
  | [] => f []
  | d :: t2 => f (d :: t2) || starLoop f t2

/-- SQL LIKE pattern matching: `%` matches any (possibly empty) character
sequence, `_` matches exactly one character, anything else matches itself. -/
def likeMatch : List Char → List Char → Bool
  | [], t => t.isEmpty
  | c :: p, t =>
    if c = pctChar then starLoop (likeMatch p) t
    else
      match t with
      | [] => false
      | d :: t2 => if c = usChar then likeMatch p t2 else decide (c = d) && likeMatch p t2

/-- Case-fold a character sequence (ILIKE = case-insensitive LIKE). -/
def lowerChars (l : List Char) : List Char := l.map Char.toLower

/-- SQL `text ILIKE pattern`. -/
def ilike (pattern text : List Char) : Bool :=
  likeMatch (lowerChars pattern) (lowerChars text)

/-- The text of the second argument of `SNOWFLAKE.CORTEX.SEARCH_PREVIEW` in
the primary search SQL (src/app.py line 72): the escaped query placed inside
a string literal. -/
def serviceArgText (query : List Char) : List Char := escapeQuotes query

/-- The query string the search service receives after the SQL engine parses
the literal `'{escaped_query}'`. -/
def serviceReceives (query : List Char) : Option (List Char) :=
  parseLitContent (serviceArgText query)

/-- The text inside the literal `'%{escaped_query}%'` of the fallback SQL
(src/app.py lines 89-90). -/
def fallbackLitContent (query : List Char) : List Char :=
  pctChar :: (escapeQuotes query ++ [pctChar])

/-- The ILIKE pattern the SQL engine obtains from `'%{escaped_query}%'`. -/
def fallbackPattern (query : List Char) : Option (List Char) :=
  parseLitContent (fallbackLitContent query)

/-- The WHERE clause of the fallback query (src/app.py lines 89-90):
`CATEGORY ILIKE '%q%' OR SUBCATEGORY ILIKE '%q%'`.  If the literal did not
parse the SQL would be rejected, which we model as matching nothing (the
parse in fact always succeeds; see `escapeQuotes_parses`). -/
def fallbackMatch (query : List Char) (t : Ticket) : Bool :=
  match fallbackPattern query with
  | none => false
  | some pat => ilike pat t.category.data || ilike pat t.subcategory.data

/-- Column list of the primary (Cortex) SELECT, src/app.py lines 60-68. -/
def primaryColumns : List String :=
  ["TICKET_ID", "CUSTOMER_ID", "CATEGORY", "SUBCATEGORY", "PRIORITY",
   "CREATED_DATE", "DESCRIPTION"]

/-- Column list of the fallback SELECT, src/app.py line 87. -/
def fallbackColumns : List String :=
  ["TICKET_ID", "CUSTOMER_ID", "CATEGORY", "SUBCATEGORY", "PRIORITY",
   "CREATED_DATE"]

/-- Shape-aware search result: which columns the returned table has, its
rows, and which path produced it. -/
structure SearchResult where
  cols : List String
  rows : List Ticket
  usedFallback : Bool
deriving DecidableEq

/-- The primary path: the Cortex service (an external oracle `cortex`,
`none` modelling a raised exception) applied to the query text recovered
from the SQL literal; a malformed literal also raises. -/
def primaryCall (cortex : List Char → Option (List Ticket))
    (query : List Char) : Option (List Ticket) :=
  (serviceReceives query).bind cortex

/-- Embeds `search_tickets_cortex` (src/app.py lines 55-93): try the Cortex
query; on any exception fall back to the ILIKE query over CATEGORY and
SUBCATEGORY with `LIMIT limit`.  The Python default for `limit` is 50. -/
def search_tickets_cortex (table : List Ticket)
    (cortex : List Char → Option (List Ticket)) (query : String)
    (limit : Nat) : SearchResult :=
  match primaryCall cortex query.data with
  | some rows => ⟨primaryColumns, rows, false⟩
  | none => ⟨fallbackColumns, (table.filter (fallbackMatch query.data)).take limit, true⟩

/-- Case-insensitive substring test, the match surface the spec ascribes to
the fallback (claim wording, for comparison with the ILIKE semantics). -/
def ciSubstr (q s : String) : Bool :=
  decide (lowerChars q.data <:+: lowerChars s.data)

/-! ### Presentation layer (`main`, src/app.py lines 182-357) -/

/-- Embeds `max((end_date - start_date).days, 1)` (src/app.py line 274):
the denominator of the average-per-day metric. -/
def avg_denominator (start_date end_date : Int) : Int :=
  max (end_date - start_date) 1

/-- Embeds `avg_per_day = total_tickets / max((end_date - start_date).days, 1)`
(src/app.py line 274), with exact rational division in place of Python
float division. -/
def avg_per_day (total : Nat) (start_date end_date : Int) : ℚ :=
  (total : ℚ) / ((avg_denominator start_date end_date : ℤ) : ℚ)

/-- The five warehouse queries the dashboard branch of `main` runs, in
program order. -/
inductive ReportId
  | total
  | timeSeries
  | byCategory
  | byPriority
  | filteredList
deriving DecidableEq

/-- What a single panel of the page ends up showing. -/
inductive PanelOut
  | content
  | message (s : String)
  | silent
  | aborted
deriving DecidableEq

/-- The outcome of one full dashboard render. -/
structure DashboardRender where
  metricsShown : Bool
  timePanel : PanelOut
  categoryPanel : PanelOut
  priorityPanel : PanelOut
  listPanel : PanelOut
  crashed : Bool
deriving DecidableEq

/-- A chart panel (src/app.py lines 286, 302, 316): rendered when its
dataframe is non-empty, otherwise skipped silently — the `if len(df) > 0:`
has no else branch. -/
def chartPanel {β : Type} (df : List β) : PanelOut :=
  if df.length > 0 then PanelOut.content else PanelOut.silent

/-- The ticket-listing panel (src/app.py lines 338-357): cards when
non-empty, an explicit `st.info` empty-state message otherwise. -/
def listingPanel (df : List Ticket) : PanelOut :=
  if df.length > 0 then PanelOut.content
  else PanelOut.message "No tickets found with the selected filters."

/-- Embeds the dashboard branch of `main` (src/app.py lines 247-357).
`fail` is an oracle saying which query executions raise (Snowflake errors
are external).  `main` wraps none of these five queries in try/except, so a
raised exception propagates out of the script: Streamlit ends the run there
and nothing after the raising statement renders (`.aborted`).  Program
order: total-count metrics, time-series chart, by-category chart,
by-priority chart, filtered ticket listing.  An empty chart dataframe is
skipped with no message (`if len(df) > 0:` with no else, lines 286, 302,
316); an empty listing shows `st.info` (line 357). -/
def renderDashboard (table : List Ticket) (fail : ReportId → Bool)
    (category priority : String) (start_date end_date : Int) : DashboardRender :=
  if fail ReportId.total then
    ⟨false, PanelOut.aborted, PanelOut.aborted, PanelOut.aborted, PanelOut.aborted, true⟩
  else if fail ReportId.timeSeries then
    ⟨true, PanelOut.aborted, PanelOut.aborted, PanelOut.aborted, PanelOut.aborted, true⟩
  else
    let timeP :=
      chartPanel (get_tickets_over_time table category priority start_date end_date)
    if fail ReportId.byCategory then
      ⟨true, timeP, PanelOut.aborted, PanelOut.aborted, PanelOut.aborted, true⟩
    else
      let catP :=
        chartPanel (get_tickets_by_category table category priority start_date end_date)
      if fail ReportId.byPriority then
        ⟨true, timeP, catP, PanelOut.aborted, PanelOut.aborted, true⟩
      else
        let priP :=
          chartPanel (get_tickets_by_priority table category priority start_date end_date)
        if fail ReportId.filteredList then
          ⟨true, timeP, catP, priP, PanelOut.aborted, true⟩
        else
          let listP :=
            listingPanel
              (get_filtered_tickets table category priority start_date end_date 100)
          ⟨true, timeP, catP, priP, listP, false⟩

/-- Embeds the search branch of `main` (src/app.py lines 224-245): a
non-empty result list renders expandable cards, an empty one renders an
explicit `st.warning` message. -/
def renderSearch (table : List Ticket)
    (cortex : List Char → Option (List Ticket)) (query : String) : PanelOut :=
  if (search_tickets_cortex table cortex query 50).rows.length > 0
  then PanelOut.content
  else PanelOut.message "No tickets found matching your search."

/-! ### Spec-side comparison points for the "All" sentinel (claim C3) -/

/-- Comparison point following the spec sentence "no filter predicate is
added for that dimension": the shared WHERE clause with the category
predicate omitted entirely. -/
def matchesFiltersNoCategory (priority : String) (start_date end_date : Int)
    (t : Ticket) : Bool :=
  (decide (start_date ≤ t.created_date) && decide (t.created_date ≤ end_date))
    && (if priority = "All" then true else decide (t.priority = priority))

/-- The shared WHERE clause with the priority predicate omitted entirely. -/
def matchesFiltersNoPriority (category : String) (start_date end_date : Int)
    (t : Ticket) : Bool :=
  (decide (start_date ≤ t.created_date) && decide (t.created_date ≤ end_date))
    && (if category = "All" then true else decide (t.category = category))

/-- The distinct category values present in the table. -/
def categoriesOf (table : List Ticket) : List String :=
  (table.map Ticket.category).dedup

/-- The distinct priority values present in the table. -/
def prioritiesOf (table : List Ticket) : List String :=
  (table.map Ticket.priority).dedup

/-! ### Sample data used by witnesses and counterexamples -/

/-- Two tickets sharing a creation date but with different categories. -/
def unionCexTable : List Ticket :=
  [⟨1, 10, 100, "Billing", "Refund", "High", 0, 1, "a"⟩,
   ⟨2, 11, 101, "Bug", "Crash", "High", 0, 2, "b"⟩]

/-- A character sequence free of the SQL LIKE wildcard characters. -/
def noWildcards (l : List Char) : Prop := pctChar ∉ l ∧ usChar ∉ l

instance (l : List Char) : Decidable (noWildcards l) :=
  inferInstanceAs (Decidable (pctChar ∉ l ∧ usChar ∉ l))

/-- A ticket whose text columns contain no percent sign or underscore. -/
def wildcardTicket : Ticket := ⟨1, 10, 100, "abc", "xyz", "High", 0, 1, "d"⟩

/-- A concrete ticket for witnesses. -/
def sampleTicket1 : Ticket :=
  ⟨1, 10, 100, "Billing", "Refund", "High", 0, 1, "cannot pay invoice"⟩

/-- A second concrete ticket for witnesses. -/
def sampleTicket2 : Ticket :=
  ⟨2, 11, 101, "Bug", "Crash", "Low", 1, 2, "app crashes on load"⟩

/-- A concrete two-row table for witnesses. -/
def sampleTable : List Ticket := [sampleTicket1, sampleTicket2]

/-! ### Theorems -/

/-- Unfolding of the shared WHERE clause into its three predicates. -/
theorem matchesFilters_iff {category priority : String} {start_date end_date : Int}
    {t : Ticket} :
    matchesFilters category priority start_date end_date t = true ↔
      (start_date ≤ t.created_date ∧ t.created_date ≤ end_date) ∧
      (category ≠ "All" → t.category = category) ∧
      (priority ≠ "All" → t.priority = priority) := by
  unfold matchesFilters
  by_cases hc : category = "All" <;> by_cases hp : priority = "All" <;>
    simp [hc, hp, and_assoc]

/-- C5: the average-per-day metric never divides by zero: the denominator is
at least 1, equals 1 when the range is a single day, and the rational
division it guards is exact (`main`, src/app.py line 274). -/
theorem avg_per_day_no_div_by_zero (total : Nat) (start_date end_date : Int) :
    1 ≤ avg_denominator start_date end_date ∧
    (start_date = end_date → avg_denominator start_date end_date = 1) ∧
    avg_per_day total start_date end_date
        * ((avg_denominator start_date end_date : ℤ) : ℚ) = (total : ℚ) := by
  refine ⟨le_max_right _ _, fun h => by simp [avg_denominator, h], ?_⟩
  have h1 : (1 : Int) ≤ avg_denominator start_date end_date := le_max_right _ _
  have h0 : ((avg_denominator start_date end_date : ℤ) : ℚ) ≠ 0 := by
    exact_mod_cast (by omega : avg_denominator start_date end_date ≠ 0)
  unfold avg_per_day
  exact div_mul_cancel₀ _ h0

/-- Witness for `avg_per_day_no_div_by_zero` at a single-day range. -/
theorem avg_per_day_no_div_by_zero_witness :
    avg_denominator 5 5 = 1 ∧
    avg_per_day 7 5 5 * ((avg_denominator 5 5 : ℤ) : ℚ) = (7 : ℚ) :=
  ⟨(avg_per_day_no_div_by_zero 7 5 5).2.1 rfl, (avg_per_day_no_div_by_zero 7 5 5).2.2⟩

/-- C8: the category and priority option loaders each return "All" followed
by the distinct values of their column sorted ascending
(`get_categories` / `get_priorities`, src/app.py lines 31-42). -/
theorem option_loaders_spec (table : List Ticket) :
    (get_categories table).head? = some "All" ∧
    List.Sorted (· ≤ ·) (get_categories table).tail ∧
    (get_categories table).tail.Nodup ∧
    (∀ c, c ∈ (get_categories table).tail ↔ c ∈ table.map Ticket.category) ∧
    (get_priorities table).head? = some "All" ∧
    List.Sorted (· ≤ ·) (get_priorities table).tail ∧
    (get_priorities table).tail.Nodup ∧
    (∀ p, p ∈ (get_priorities table).tail ↔ p ∈ table.map Ticket.priority) := by
  refine ⟨rfl, ?_, ?_, ?_, rfl, ?_, ?_, ?_⟩
  · exact List.sorted_insertionSort _ _
  · exact (List.perm_insertionSort _ _).nodup_iff.mpr (List.nodup_dedup _)
  · intro c
    exact (List.perm_insertionSort _ _).mem_iff.trans List.mem_dedup
  · exact List.sorted_insertionSort _ _
  · exact (List.perm_insertionSort _ _).nodup_iff.mpr (List.nodup_dedup _)
  · intro p
    exact (List.perm_insertionSort _ _).mem_iff.trans List.mem_dedup

/-- C2: the filtered listing is a subset of the table rows satisfying every
supplied predicate (date in the closed interval, exact category match unless
"All", exact priority match unless "All"), sorted by creation date
descending, of length at most the limit (`get_filtered_tickets`,
src/app.py lines 96-115; `main` passes the Python default limit 100). -/
theorem filtered_listing_spec (table : List Ticket) (category priority : String)
    (start_date end_date : Int) (limit : Nat) (_h : start_date ≤ end_date) :
    (∀ t ∈ get_filtered_tickets table category priority start_date end_date limit,
        t ∈ table ∧ start_date ≤ t.created_date ∧ t.created_date ≤ end_date ∧
        (category ≠ "All" → t.category = category) ∧
        (priority ≠ "All" → t.priority = priority)) ∧
    List.Sorted dateDesc
      (get_filtered_tickets table category priority start_date end_date limit) ∧
    (get_filtered_tickets table category priority start_date end_date limit).length
      ≤ limit := by
  refine ⟨?_, ?_, ?_⟩
  · intro t ht
    have ht1 := List.mem_of_mem_take ht
    have ht2 := (List.perm_insertionSort dateDesc _).mem_iff.mp ht1
    obtain ⟨htab, hm⟩ := List.mem_filter.mp ht2
    obtain ⟨⟨h1, h2⟩, h3, h4⟩ := matchesFilters_iff.mp hm
    exact ⟨htab, h1, h2, h3, h4⟩
  · exact List.Pairwise.sublist (List.take_sublist _ _)
      (List.sorted_insertionSort dateDesc _)
  · exact List.length_take_le _ _

/-- Witness for `filtered_listing_spec` at a concrete table and filter. -/
theorem filtered_listing_spec_witness :
    (get_filtered_tickets sampleTable "Billing" "All" 0 3 100).length ≤ 100 :=
  (filtered_listing_spec sampleTable "Billing" "All" 0 3 100 (by decide)).2.2

/-- Summing per-key group counts over a duplicate-free key list that covers
all rows recovers the row count (the GROUP BY / COUNT(*) accounting lemma). -/
theorem sum_counts_over_keys {α β : Type} [DecidableEq β] (key : α → β) :
    ∀ (keys : List β) (l : List α), keys.Nodup → (∀ x ∈ l, key x ∈ keys) →
      (keys.map (fun k => (l.filter (fun x => decide (key x = k))).length)).sum
        = l.length := by
  intro keys
  induction keys with
  | nil =>
    intro l _ hcov
    have hl : l = [] := List.eq_nil_iff_forall_not_mem.mpr
      (fun x hx => absurd (hcov x hx) (List.not_mem_nil _))
    simp [hl]
  | cons k ks ih =>
    intro l hnd hcov
    have hkks : k ∉ ks := (List.nodup_cons.mp hnd).1
    have hndks : ks.Nodup := (List.nodup_cons.mp hnd).2
    have hrest : ∀ kj ∈ ks,
        ((l.filter (fun x => !(decide (key x = k)))).filter
            (fun x => decide (key x = kj))).length
          = (l.filter (fun x => decide (key x = kj))).length := by
      intro kj hkj
      have hne : kj ≠ k := fun hek => hkks (hek ▸ hkj)
      rw [List.filter_filter]
      congr 1
      apply List.filter_congr
      intro a _
      by_cases h1 : key a = kj
      · simp [h1, hne]
      · simp [h1]
    have hcov2 : ∀ x ∈ l.filter (fun x => !(decide (key x = k))), key x ∈ ks := by
      intro x hx
      obtain ⟨hxl, hxk⟩ := List.mem_filter.mp hx
      simp only [Bool.not_eq_eq_eq_not, Bool.not_true, decide_eq_false_iff_not] at hxk
      rcases List.mem_cons.mp (hcov x hxl) with h | h
      · exact absurd h hxk
      · exact h
    have hih := ih (l.filter (fun x => !(decide (key x = k)))) hndks hcov2
    have hmaps : (ks.map fun kj => (l.filter (fun x => decide (key x = kj))).length)
        = ks.map fun kj =>
            ((l.filter (fun x => !(decide (key x = k)))).filter
              (fun x => decide (key x = kj))).length :=
      List.map_congr_left (fun kj hkj => (hrest kj hkj).symm)
    simp only [List.map_cons, List.sum_cons]
    rw [hmaps, hih]
    exact (List.length_eq_length_filter_add (fun x => decide (key x = k))).symm

/-- Sorting a grouped result does not change the sum of its counts. -/
theorem countSum_insertionSort {β : Type} (r : β × Nat → β × Nat → Prop)
    [DecidableRel r] (l : List (β × Nat)) :
    countSum (List.insertionSort r l) = countSum l := by
  unfold countSum
  exact List.Perm.sum_eq ((List.perm_insertionSort r l).map Prod.snd)

/-- The counts of a GROUP BY result sum to the number of grouped rows. -/
theorem countSum_groupCounts {β : Type} [DecidableEq β] (key : Ticket → β)
    (rows : List Ticket) : countSum (groupCounts key rows) = rows.length := by
  unfold countSum groupCounts
  rw [List.map_map]
  exact sum_counts_over_keys key _ rows (List.nodup_dedup _)
    (fun x hx => List.mem_dedup.mpr (List.mem_map_of_mem _ hx))

/-- C1: the per-date time-series counts, the by-category counts, and the
by-priority counts each sum to the total-count metric computed for the same
filter state (`get_tickets_over_time`, `get_tickets_by_category`,
`get_tickets_by_priority` vs the inline `total_query` of `main`,
src/app.py lines 118-178 and 255-265). -/
theorem report_sums_equal_total (table : List Ticket) (category priority : String)
    (start_date end_date : Int) (_h : start_date ≤ end_date) :
    countSum (get_tickets_over_time table category priority start_date end_date)
        = total_tickets table category priority start_date end_date ∧
    countSum (get_tickets_by_category table category priority start_date end_date)
        = total_tickets table category priority start_date end_date ∧
    countSum (get_tickets_by_priority table category priority start_date end_date)
        = total_tickets table category priority start_date end_date := by
  unfold get_tickets_over_time get_tickets_by_category get_tickets_by_priority
    total_tickets
  exact ⟨(countSum_insertionSort _ _).trans (countSum_groupCounts _ _),
    (countSum_insertionSort _ _).trans (countSum_groupCounts _ _),
    (countSum_insertionSort _ _).trans (countSum_groupCounts _ _)⟩

/-- Witness for `report_sums_equal_total` at a concrete table and filter. -/
theorem report_sums_equal_total_witness :
    countSum (get_tickets_over_time sampleTable "Billing" "All" 0 3)
        = total_tickets sampleTable "Billing" "All" 0 3 :=
  (report_sums_equal_total sampleTable "Billing" "All" 0 3 (by decide)).1

/-- C3 counterexample: for the time-series builder the "All" result is not
the union of the per-category results: with two same-day tickets in
different categories the "All" series contains the row (0, 2), which no
per-category series contains, so the two result sets differ. -/
theorem all_not_union_of_per_value_results :
    ¬ (∀ x, x ∈ get_tickets_over_time unionCexTable "All" "All" 0 0 ↔
        ∃ c ∈ categoriesOf unionCexTable,
          x ∈ get_tickets_over_time unionCexTable c "All" 0 0) := by
  intro h
  have h2 := (h (0, 2)).mp (by decide)
  exact absurd h2 (by decide)

/-- C3 amended: passing "All" for a dimension adds no filter predicate —
every builder's result with "All" equals the same computation with that
dimension's predicate omitted entirely, and the *selected row set* of the
"All" filter is exactly the union over all values of that dimension
occurring in the table; the per-builder result sets, which aggregate or
limit after filtering, are however not unions of per-value results. -/
theorem all_sentinel_spec (table : List Ticket) (category priority : String)
    (start_date end_date : Int) (limit : Nat) :
    filteredRows table "All" priority start_date end_date
        = table.filter (matchesFiltersNoCategory priority start_date end_date) ∧
    filteredRows table category "All" start_date end_date
        = table.filter (matchesFiltersNoPriority category start_date end_date) ∧
    (∀ t, t ∈ filteredRows table "All" priority start_date end_date ↔
        ∃ c ∈ categoriesOf table,
          t ∈ filteredRows table c priority start_date end_date) ∧
    (∀ t, t ∈ filteredRows table category "All" start_date end_date ↔
        ∃ p ∈ prioritiesOf table,
          t ∈ filteredRows table category p start_date end_date) ∧
    get_filtered_tickets table "All" priority start_date end_date limit
        = (List.insertionSort dateDesc
            (table.filter (matchesFiltersNoCategory priority start_date end_date))).take
            limit ∧
    get_tickets_over_time table "All" priority start_date end_date
        = List.insertionSort dateAsc (groupCounts Ticket.created_date
            (table.filter (matchesFiltersNoCategory priority start_date end_date))) ∧
    get_tickets_by_category table "All" priority start_date end_date
        = List.insertionSort countDesc (groupCounts Ticket.category
            (table.filter (matchesFiltersNoCategory priority start_date end_date))) ∧
    get_tickets_by_priority table "All" priority start_date end_date
        = List.insertionSort countDesc (groupCounts Ticket.priority
            (table.filter (matchesFiltersNoCategory priority start_date end_date))) ∧
    get_filtered_tickets table category "All" start_date end_date limit
        = (List.insertionSort dateDesc
            (table.filter (matchesFiltersNoPriority category start_date end_date))).take
            limit ∧
    get_tickets_over_time table category "All" start_date end_date
        = List.insertionSort dateAsc (groupCounts Ticket.created_date
            (table.filter (matchesFiltersNoPriority category start_date end_date))) ∧
    get_tickets_by_category table category "All" start_date end_date
        = List.insertionSort countDesc (groupCounts Ticket.category
            (table.filter (matchesFiltersNoPriority category start_date end_date))) ∧
    get_tickets_by_priority table category "All" start_date end_date
        = List.insertionSort countDesc (groupCounts Ticket.priority
            (table.filter (matchesFiltersNoPriority category start_date end_date))) := by
  have hnc : matchesFilters "All" priority start_date end_date
      = matchesFiltersNoCategory priority start_date end_date := by
    funext t
    simp [matchesFilters, matchesFiltersNoCategory]
  have hnp : matchesFilters category "All" start_date end_date
      = matchesFiltersNoPriority category start_date end_date := by
    funext t
    simp [matchesFilters, matchesFiltersNoPriority]
  have hrows1 : filteredRows table "All" priority start_date end_date
      = table.filter (matchesFiltersNoCategory priority start_date end_date) := by
    unfold filteredRows
    rw [hnc]
  have hrows2 : filteredRows table category "All" start_date end_date
      = table.filter (matchesFiltersNoPriority category start_date end_date) := by
    unfold filteredRows
    rw [hnp]
  have hu1 : ∀ t, t ∈ filteredRows table "All" priority start_date end_date ↔
      ∃ c ∈ categoriesOf table,
        t ∈ filteredRows table c priority start_date end_date := by
    intro t
    constructor
    · intro ht
      obtain ⟨htab, hm⟩ := List.mem_filter.mp ht
      obtain ⟨h12, _, h4⟩ := matchesFilters_iff.mp hm
      refine ⟨t.category, List.mem_dedup.mpr (List.mem_map_of_mem _ htab), ?_⟩
      exact List.mem_filter.mpr ⟨htab, matchesFilters_iff.mpr ⟨h12, fun _ => rfl, h4⟩⟩
    · rintro ⟨c, _, ht⟩
      obtain ⟨htab, hm⟩ := List.mem_filter.mp ht
      obtain ⟨h12, _, h4⟩ := matchesFilters_iff.mp hm
      exact List.mem_filter.mpr
        ⟨htab, matchesFilters_iff.mpr ⟨h12, fun hne => absurd rfl hne, h4⟩⟩
  have hu2 : ∀ t, t ∈ filteredRows table category "All" start_date end_date ↔
      ∃ p ∈ prioritiesOf table,
        t ∈ filteredRows table category p start_date end_date := by
    intro t
    constructor
    · intro ht
      obtain ⟨htab, hm⟩ := List.mem_filter.mp ht
      obtain ⟨h12, h3, _⟩ := matchesFilters_iff.mp hm
      refine ⟨t.priority, List.mem_dedup.mpr (List.mem_map_of_mem _ htab), ?_⟩
      exact List.mem_filter.mpr ⟨htab, matchesFilters_iff.mpr ⟨h12, h3, fun _ => rfl⟩⟩
    · rintro ⟨p, _, ht⟩
      obtain ⟨htab, hm⟩ := List.mem_filter.mp ht
      obtain ⟨h12, h3, _⟩ := matchesFilters_iff.mp hm
      exact List.mem_filter.mpr
        ⟨htab, matchesFilters_iff.mpr ⟨h12, h3, fun hne => absurd rfl hne⟩⟩
  refine ⟨hrows1, hrows2, hu1, hu2, ?_, ?_, ?_, ?_, ?_, ?_, ?_, ?_⟩ <;>
    simp only [get_filtered_tickets, get_tickets_over_time, get_tickets_by_category,
      get_tickets_by_priority, hrows1, hrows2]

/-- Step rule of the literal parser: the empty text is one empty literal. -/
theorem parseLitContent_nil : parseLitContent [] = some [] := rfl

/-- Step rule of the literal parser: a doubled quote denotes one quote. -/
theorem parseLitContent_quote (r : List Char) :
    parseLitContent (quoteChar :: quoteChar :: r)
      = (parseLitContent r).map (fun l => quoteChar :: l) := by
  rw [parseLitContent]
  simp

/-- Step rule of the literal parser: a non-quote character passes through. -/
theorem parseLitContent_other {c : Char} (hc : ¬ c = quoteChar) (r : List Char) :
    parseLitContent (c :: r) = (parseLitContent r).map (fun l => c :: l) := by
  rw [parseLitContent.eq_def]
  simp [hc]

/-- Parsing the escaped text followed by a remainder: the escaped part is
consumed as literal text denoting the original characters, and parsing
continues in the remainder. -/
theorem parse_escape_append (q : List Char) :
    ∀ r, parseLitContent (escapeQuotes q ++ r)
      = (parseLitContent r).map (fun l => q ++ l) := by
  induction q with
  | nil =>
    intro r
    simp only [escapeQuotes, List.nil_append]
    cases parseLitContent r <;> simp
  | cons c q2 ih =>
    intro r
    by_cases hc : c = quoteChar
    · subst hc
      simp only [escapeQuotes, if_true, eq_self_iff_true, List.cons_append]
      rw [parseLitContent_quote, ih r]
      cases parseLitContent r <;> simp
    · simp only [escapeQuotes, if_neg hc, List.cons_append]
      rw [parseLitContent_other hc, ih r]
      cases parseLitContent r <;> simp

/-- Each single-quote of the query is doubled by the escaping. -/
theorem escapeQuotes_count (q : List Char) :
    (escapeQuotes q).count quoteChar = 2 * q.count quoteChar := by
  induction q with
  | nil => rfl
  | cons c r ih =>
    by_cases hc : c = quoteChar
    · subst hc
      simp [escapeQuotes, List.count_cons, ih]
      omega
    · simp [escapeQuotes, if_neg hc, List.count_cons, hc, ih]

/-- C9: the search adapter doubles every single-quote of the query; the
escaped text parses as one whole SQL string literal denoting exactly the
original query, never terminating the literal early; and both paths are
built from that same escaped text: the primary path's service argument
parses back to the query verbatim and the fallback ILIKE pattern parses to
literally %query% (`search_tickets_cortex`, src/app.py lines 58, 72, 89-90). -/
theorem escapeQuotes_spec (query : List Char) :
    parseLitContent (escapeQuotes query) = some query ∧
    (escapeQuotes query).count quoteChar = 2 * query.count quoteChar ∧
    serviceReceives query = some query ∧
    fallbackPattern query = some (pctChar :: (query ++ [pctChar])) := by
  have hparse : parseLitContent (escapeQuotes query) = some query := by
    have h := parse_escape_append query []
    rw [List.append_nil, parseLitContent_nil] at h
    simpa using h
  have hpct : ¬ pctChar = quoteChar := by decide
  have hfp : fallbackPattern query = some (pctChar :: (query ++ [pctChar])) := by
    unfold fallbackPattern fallbackLitContent
    rw [parseLitContent_other hpct, parse_escape_append query [pctChar],
      parseLitContent_other hpct, parseLitContent_nil]
    simp
  exact ⟨hparse, escapeQuotes_count query, hparse, hfp⟩

/-- C10: the two search paths return differently shaped tables: the primary
path's SELECT includes a DESCRIPTION column, while the fallback SELECT
projects only the six non-description columns
(`search_tickets_cortex`, src/app.py lines 60-68 and 86-92). -/
theorem search_result_shapes (table : List Ticket)
    (cortex : List Char → Option (List Ticket)) (query : String) (limit : Nat) :
    ((primaryCall cortex query.data).isSome →
        (search_tickets_cortex table cortex query limit).cols = primaryColumns) ∧
    (primaryCall cortex query.data = none →
        (search_tickets_cortex table cortex query limit).cols = fallbackColumns) ∧
    "DESCRIPTION" ∈ primaryColumns ∧
    "DESCRIPTION" ∉ fallbackColumns ∧
    fallbackColumns = ["TICKET_ID", "CUSTOMER_ID", "CATEGORY", "SUBCATEGORY",
      "PRIORITY", "CREATED_DATE"] := by
  refine ⟨?_, ?_, by decide, by decide, rfl⟩
  · intro h
    cases hp : primaryCall cortex query.data with
    | some rows =>
      unfold search_tickets_cortex
      rw [hp]
    | none =>
      rw [hp] at h
      exact absurd h (by simp)
  · intro h
    unfold search_tickets_cortex
    rw [h]

/-- Witness for `search_result_shapes`: a succeeding and a failing primary
call on the sample table. -/
theorem search_result_shapes_witness :
    (search_tickets_cortex sampleTable (fun _ => some []) "x" 50).cols
        = primaryColumns ∧
    (search_tickets_cortex sampleTable (fun _ => none) "x" 50).cols
        = fallbackColumns :=
  ⟨(search_result_shapes sampleTable (fun _ => some []) "x" 50).1 (by decide),
    (search_result_shapes sampleTable (fun _ => none) "x" 50).2.1 (by decide)⟩

/-- Step rule of the LIKE matcher: a leading % defers to the star loop. -/
theorem likeMatch_pct_step (p t : List Char) :
    likeMatch (pctChar :: p) t = starLoop (likeMatch p) t := by
  rw [likeMatch.eq_def]
  simp

/-- Step rules of the LIKE matcher at an ordinary character. -/
theorem likeMatch_cons_other {c : Char} (hcp : ¬ c = pctChar) (hcu : ¬ c = usChar)
    (p : List Char) :
    likeMatch (c :: p) [] = false ∧
    ∀ d t2, likeMatch (c :: p) (d :: t2) = (decide (c = d) && likeMatch p t2) := by
  constructor
  · rw [likeMatch.eq_def]
    simp [hcp]
  · intro d t2
    rw [likeMatch.eq_def]
    simp [hcp, hcu]

/-- A pattern consisting of a single % matches every text. -/
theorem likeMatch_pct_all (t : List Char) : likeMatch [pctChar] t = true := by
  induction t with
  | nil => rfl
  | cons d t2 ih =>
    rw [likeMatch_pct_step] at ih ⊢
    rw [starLoop, show likeMatch [] (d :: t2) = false from rfl, ih]
    rfl

/-- Semantics of a leading %: some suffix of the text matches the rest of
the pattern. -/
theorem starLoop_iff (p t : List Char) :
    starLoop (likeMatch p) t = true ↔ ∃ s, s <:+ t ∧ likeMatch p s = true := by
  induction t with
  | nil =>
    constructor
    · intro h
      exact ⟨[], List.suffix_rfl, h⟩
    · rintro ⟨s, hs, hm⟩
      rw [List.suffix_nil] at hs
      subst hs
      exact hm
  | cons d t2 ih =>
    rw [starLoop, Bool.or_eq_true]
    constructor
    · rintro (h | h)
      · exact ⟨d :: t2, List.suffix_rfl, h⟩
      · obtain ⟨s, hs, hm⟩ := ih.mp h
        exact ⟨s, hs.trans (List.suffix_cons d t2), hm⟩
    · rintro ⟨s, hs, hm⟩
      rcases List.suffix_cons_iff.mp hs with h | h
      · subst h
        exact Or.inl hm
      · exact Or.inr (ih.mpr ⟨s, h, hm⟩)

/-- A wildcard-free pattern followed by % matches exactly the texts it
prefixes. -/
theorem likeMatch_literal_pct :
    ∀ q : List Char, noWildcards q →
      ∀ t, (likeMatch (q ++ [pctChar]) t = true ↔ q <+: t) := by
  intro q
  induction q with
  | nil =>
    intro _ t
    simp only [List.nil_append]
    exact ⟨fun _ => List.nil_prefix, fun _ => likeMatch_pct_all t⟩
  | cons c q2 ih =>
    intro hq t
    have hcp : ¬ c = pctChar := fun h => hq.1 (List.mem_cons.mpr (Or.inl h.symm))
    have hcu : ¬ c = usChar := fun h => hq.2 (List.mem_cons.mpr (Or.inl h.symm))
    have hq2 : noWildcards q2 :=
      ⟨fun h => hq.1 (List.mem_cons_of_mem c h),
       fun h => hq.2 (List.mem_cons_of_mem c h)⟩
    rw [List.cons_append]
    cases t with
    | nil =>
      rw [(likeMatch_cons_other hcp hcu _).1]
      simp
    | cons d t2 =>
      rw [(likeMatch_cons_other hcp hcu _).2 d t2, List.cons_prefix_cons,
        Bool.and_eq_true, decide_eq_true_eq, ih hq2 t2]

/-- The pattern %q% with wildcard-free q matches exactly the texts
containing q. -/
theorem likeMatch_pct_between (q : List Char) (hq : noWildcards q)
    (t : List Char) :
    likeMatch (pctChar :: (q ++ [pctChar])) t = true ↔ q <:+: t := by
  rw [likeMatch_pct_step, starLoop_iff]
  constructor
  · rintro ⟨s, hs, hm⟩
    exact List.infix_iff_prefix_suffix.mpr
      ⟨s, (likeMatch_literal_pct q hq s).mp hm, hs⟩
  · intro h
    obtain ⟨s, hp, hs⟩ := List.infix_iff_prefix_suffix.mp h
    exact ⟨s, hs, (likeMatch_literal_pct q hq s).mpr hp⟩

/-- The code point stored by `Char.ofNat` at a valid code point. -/
theorem toNat_ofNat_valid {n : Nat} (h : n.isValidChar) :
    (Char.ofNat n).toNat = n := by
  unfold Char.ofNat
  rw [dif_pos h]
  unfold Char.ofNatAux Char.toNat
  simp [UInt32.toNat]

/-- Case-folding maps no other character onto a LIKE wildcard
(code points 37 and 95). -/
theorem toLower_eq_wildcard {c w : Char} (hw : w.toNat = 37 ∨ w.toNat = 95)
    (h : Char.toLower c = w) : c = w := by
  unfold Char.toLower at h
  simp only [] at h
  by_cases hcond : c.toNat >= 65 ∧ c.toNat <= 90
  case pos =>
    rw [if_pos hcond] at h
    have h2 := congrArg Char.toNat h
    have hv : Nat.isValidChar (Char.toNat c + 32) := by
      left
      omega
    rw [toNat_ofNat_valid hv] at h2
    omega
  case neg =>
    rw [if_neg hcond] at h
    exact h

/-- Case-folding preserves wildcard-freeness. -/
theorem noWildcards_lower {q : List Char} (hq : noWildcards q) :
    noWildcards (lowerChars q) := by
  constructor
  · intro h
    obtain ⟨c, hc, he⟩ := List.mem_map.mp h
    have hcp : c = pctChar := toLower_eq_wildcard (Or.inl (by decide)) he
    exact hq.1 (hcp ▸ hc)
  · intro h
    obtain ⟨c, hc, he⟩ := List.mem_map.mp h
    have hcu : c = usChar := toLower_eq_wildcard (Or.inr (by decide)) he
    exact hq.2 (hcu ▸ hc)

/-- C4 counterexample: with the query "%" (a LIKE wildcard) the fallback
returns a row even though "%" is not a case-insensitive substring of its
category or subcategory, so "matches the query as a substring" is false as
stated for wildcard queries. -/
theorem fallback_substring_cex :
    (search_tickets_cortex [wildcardTicket] (fun _ => none) "%" 50).usedFallback
        = true ∧
    wildcardTicket ∈ (search_tickets_cortex [wildcardTicket]
        (fun _ => none) "%" 50).rows ∧
    ciSubstr "%" wildcardTicket.category = false ∧
    ciSubstr "%" wildcardTicket.subcategory = false := by
  decide

/-- C4 amended: the fallback path runs exactly when the primary Cortex call
raises; every row it returns matches the ILIKE pattern %query% against the
CATEGORY or SUBCATEGORY column; the DESCRIPTION column is never part of the
match surface; and whenever the query contains no SQL LIKE wildcard
characters (% and _) the fallback match is exactly a case-insensitive
substring match of the query against category or subcategory
(`search_tickets_cortex`, src/app.py lines 82-93). -/
theorem search_fallback_spec (table : List Ticket)
    (cortex : List Char → Option (List Ticket)) (query : String) (limit : Nat) :
    ((search_tickets_cortex table cortex query limit).usedFallback = true ↔
        primaryCall cortex query.data = none) ∧
    (primaryCall cortex query.data = none →
      ∀ t ∈ (search_tickets_cortex table cortex query limit).rows,
        fallbackMatch query.data t = true) ∧
    (∀ t : Ticket, ∀ d : String,
        fallbackMatch query.data t
          = fallbackMatch query.data { t with description := d }) ∧
    (noWildcards query.data →
      ∀ t : Ticket, fallbackMatch query.data t
        = (ciSubstr query t.category || ciSubstr query t.subcategory)) := by
  refine ⟨?_, ?_, ?_, ?_⟩
  · unfold search_tickets_cortex
    cases hp : primaryCall cortex query.data <;> simp
  · intro hp t ht
    unfold search_tickets_cortex at ht
    rw [hp] at ht
    exact (List.mem_filter.mp (List.mem_of_mem_take ht)).2
  · intro t d
    rfl
  · intro hq t
    have hfp := (escapeQuotes_spec query.data).2.2.2
    unfold fallbackMatch
    simp only [hfp]
    have hpc : Char.toLower pctChar = pctChar := by decide
    have hpat : ∀ s : String,
        ilike (pctChar :: (query.data ++ [pctChar])) s.data = ciSubstr query s := by
      intro s
      unfold ilike ciSubstr
      have hl : lowerChars (pctChar :: (query.data ++ [pctChar]))
          = pctChar :: (lowerChars query.data ++ [pctChar]) := by
        simp [lowerChars, hpc]
      rw [hl]
      cases hb : likeMatch (pctChar :: (lowerChars query.data ++ [pctChar]))
          (lowerChars s.data) with
      | true =>
        have hin := (likeMatch_pct_between _ (noWildcards_lower hq) _).mp hb
        simp [hin]
      | false =>
        have hin : ¬ lowerChars query.data <:+: lowerChars s.data := by
          intro hin
          rw [(likeMatch_pct_between _ (noWildcards_lower hq) _).mpr hin] at hb
          cases hb
        simp [hin]
    rw [hpat t.category, hpat t.subcategory]

/-- Witness for `search_fallback_spec` at a wildcard-free query. -/
theorem search_fallback_spec_witness :
    fallbackMatch "abc".data sampleTicket1
      = (ciSubstr "abc" sampleTicket1.category
          || ciSubstr "abc" sampleTicket1.subcategory) :=
  (search_fallback_spec sampleTable (fun _ => none) "abc" 50).2.2.2
    (by decide) sampleTicket1

/-- C6 counterexample: with only the time-series query failing, the
sibling category, priority and listing panels never render: the uncaught
exception ends the script run instead of being confined to one panel. -/
theorem panel_isolation_cex :
    (renderDashboard sampleTable (fun i => decide (i = ReportId.timeSeries))
        "All" "All" 0 3).categoryPanel = PanelOut.aborted ∧
    (renderDashboard sampleTable (fun i => decide (i = ReportId.timeSeries))
        "All" "All" 0 3).priorityPanel = PanelOut.aborted ∧
    (renderDashboard sampleTable (fun i => decide (i = ReportId.timeSeries))
        "All" "All" 0 3).listPanel = PanelOut.aborted ∧
    (renderDashboard sampleTable (fun i => decide (i = ReportId.timeSeries))
        "All" "All" 0 3).crashed = true := by
  decide

/-- C6 amended: `main` wraps none of the five dashboard queries in
try/except, so there is no per-panel isolation: the first failing query
ends the whole run — panels rendered before it stay, the failing panel and
every later panel never render; when no query fails nothing is aborted
(src/app.py lines 254-357). -/
theorem query_failure_aborts_run (table : List Ticket) (fail : ReportId → Bool)
    (category priority : String) (start_date end_date : Int) :
    (fail ReportId.total = true →
      renderDashboard table fail category priority start_date end_date
        = ⟨false, PanelOut.aborted, PanelOut.aborted, PanelOut.aborted,
            PanelOut.aborted, true⟩) ∧
    (fail ReportId.total = false → fail ReportId.timeSeries = true →
      renderDashboard table fail category priority start_date end_date
        = ⟨true, PanelOut.aborted, PanelOut.aborted, PanelOut.aborted,
            PanelOut.aborted, true⟩) ∧
    (fail ReportId.total = false → fail ReportId.timeSeries = false →
     fail ReportId.byCategory = true →
      renderDashboard table fail category priority start_date end_date
        = ⟨true,
            chartPanel (get_tickets_over_time table category priority
              start_date end_date),
            PanelOut.aborted, PanelOut.aborted, PanelOut.aborted, true⟩) ∧
    (fail ReportId.total = false → fail ReportId.timeSeries = false →
     fail ReportId.byCategory = false → fail ReportId.byPriority = true →
      renderDashboard table fail category priority start_date end_date
        = ⟨true,
            chartPanel (get_tickets_over_time table category priority
              start_date end_date),
            chartPanel (get_tickets_by_category table category priority
              start_date end_date),
            PanelOut.aborted, PanelOut.aborted, true⟩) ∧
    (fail ReportId.total = false → fail ReportId.timeSeries = false →
     fail ReportId.byCategory = false → fail ReportId.byPriority = false →
     fail ReportId.filteredList = true →
      renderDashboard table fail category priority start_date end_date
        = ⟨true,
            chartPanel (get_tickets_over_time table category priority
              start_date end_date),
            chartPanel (get_tickets_by_category table category priority
              start_date end_date),
            chartPanel (get_tickets_by_priority table category priority
              start_date end_date),
            PanelOut.aborted, true⟩) ∧
    ((∀ i, fail i = false) →
      renderDashboard table fail category priority start_date end_date
        = ⟨true,
            chartPanel (get_tickets_over_time table category priority
              start_date end_date),
            chartPanel (get_tickets_by_category table category priority
              start_date end_date),
            chartPanel (get_tickets_by_priority table category priority
              start_date end_date),
            listingPanel (get_filtered_tickets table category priority
              start_date end_date 100),
            false⟩) := by
  refine ⟨?_, ?_, ?_, ?_, ?_, ?_⟩
  · intro h0
    simp [renderDashboard, h0]
  · intro h0 h1
    simp [renderDashboard, h0, h1]
  · intro h0 h1 h2
    simp [renderDashboard, h0, h1, h2]
  · intro h0 h1 h2 h3
    simp [renderDashboard, h0, h1, h2, h3]
  · intro h0 h1 h2 h3 h4
    simp [renderDashboard, h0, h1, h2, h3, h4]
  · intro hf
    simp [renderDashboard, hf ReportId.total, hf ReportId.timeSeries,
      hf ReportId.byCategory, hf ReportId.byPriority, hf ReportId.filteredList]

/-- Witness for `query_failure_aborts_run` with every query failing. -/
theorem query_failure_aborts_run_witness :
    renderDashboard sampleTable (fun _ => true) "All" "All" 0 3
      = ⟨false, PanelOut.aborted, PanelOut.aborted, PanelOut.aborted,
          PanelOut.aborted, true⟩ :=
  (query_failure_aborts_run sampleTable (fun _ => true) "All" "All" 0 3).1 rfl

/-- C7 counterexample: with an empty table and no query failures every
chart dataframe is empty, yet the time, category, and priority chart
panels render silently blank with no explicit empty-state message; only
the listing panel shows one. -/
theorem empty_state_cex :
    get_tickets_over_time [] "All" "All" 0 0 = [] ∧
    (renderDashboard [] (fun _ => false) "All" "All" 0 0).timePanel
        = PanelOut.silent ∧
    (renderDashboard [] (fun _ => false) "All" "All" 0 0).categoryPanel
        = PanelOut.silent ∧
    (renderDashboard [] (fun _ => false) "All" "All" 0 0).priorityPanel
        = PanelOut.silent ∧
    (∀ s, (renderDashboard [] (fun _ => false) "All" "All" 0 0).timePanel
        ≠ PanelOut.message s) := by
  refine ⟨by decide, by decide, by decide, by decide, ?_⟩
  intro s
  rw [show (renderDashboard [] (fun _ => false) "All" "All" 0 0).timePanel
      = PanelOut.silent from by decide]
  exact fun h => PanelOut.noConfusion h

/-- C7 amended: the ticket-listing and search panels do render explicit
empty-state messages when their results are empty, but the three chart
panels render silently blank when their dataframes are empty — the
`if len(df) > 0:` guards have no else branch (src/app.py lines 286-323,
338-357, 224-245). -/
theorem empty_state_spec (table : List Ticket) (fail : ReportId → Bool)
    (cortex : List Char → Option (List Ticket))
    (category priority query : String) (start_date end_date : Int) :
    ((∀ i, fail i = false) →
      (get_tickets_over_time table category priority start_date end_date = [] →
        (renderDashboard table fail category priority start_date end_date).timePanel
          = PanelOut.silent) ∧
      (get_tickets_by_category table category priority start_date end_date = [] →
        (renderDashboard table fail category priority start_date end_date).categoryPanel
          = PanelOut.silent) ∧
      (get_tickets_by_priority table category priority start_date end_date = [] →
        (renderDashboard table fail category priority start_date end_date).priorityPanel
          = PanelOut.silent) ∧
      (get_filtered_tickets table category priority start_date end_date 100 = [] →
        (renderDashboard table fail category priority start_date end_date).listPanel
          = PanelOut.message "No tickets found with the selected filters.")) ∧
    ((search_tickets_cortex table cortex query 50).rows = [] →
      renderSearch table cortex query
        = PanelOut.message "No tickets found matching your search.") := by
  constructor
  · intro hf
    have h0 := hf ReportId.total
    have h1 := hf ReportId.timeSeries
    have h2 := hf ReportId.byCategory
    have h3 := hf ReportId.byPriority
    have h4 := hf ReportId.filteredList
    refine ⟨?_, ?_, ?_, ?_⟩ <;> intro he <;>
      simp [renderDashboard, chartPanel, listingPanel, h0, h1, h2, h3, h4, he]
  · intro he
    unfold renderSearch
    rw [he]
    rfl

/-- Witness for `empty_state_spec` on the empty table. -/
theorem empty_state_spec_witness :
    (renderDashboard ([] : List Ticket) (fun _ => false) "All" "All" 0 0).timePanel
      = PanelOut.silent :=
  ((empty_state_spec [] (fun _ => false) (fun _ => none) "All" "All" "q" 0 0).1
    (fun _ => rfl)).1 (by decide)

end TicketDash
